import Mathlib

/-!
Verification of the browser-simulator participant control plane.

This file gives a shallow embedding, in Lean 4, of the parts of the
`hypervideo/browser-simulator` sources that the checked properties talk
about:

* the configuration enums and the client configuration record of the
  `client_simulator_config` crate (`src/config/src/client_config.rs`),
* the orchestrator test-plan records and the effective-participant
  layering (`src/orchestrator/src/config.rs`),
* the page-acquisition retry loop and the actor command loop of
  `src/browser/src/participant/inner.rs` / `inner_lite.rs`,
* the participant handle guards (`src/browser/src/participant/mod.rs`),
* the cookie pool (`src/src/browser/auth.rs`),
* the worker web-socket loop (`src/http/src/participant.rs`), and
* the wire encoding of `ParticipantConfigQuery`
  (`src/browser/src/participant/transport_data.rs`).

Rust `String` values that travel through serialization are modelled as
lists of byte values (`List Nat`, each `< 256`); machine integers are
modelled as `Nat`.  Fallible Rust functions returning `Result` are
modelled with `Except`/`Option`.  External collaborators (the CDP
browser driver, the network, `serde_json`, `base64`, `chrono`, `url`)
are modelled at their interface: page interactions become explicit
oracles, `serde_json::to_string`/`from_slice` become a JSON syntax tree
with a byte-level renderer and parser, `base64` becomes an executable
standard-alphabet codec, and the `chrono`/`url` string codecs become
injective string encodings.
-/

/-! ## Configuration enums (src/config/src/client_config.rs) -/

/-- Noise-suppression modes, `enum NoiseSuppression` with its serde
rename list. -/
inductive NoiseSuppression where
  | Disabled
  | Deepfilternet
  | RNNoise
  | IRISShepherd
  | KrispHigh
  | KrispMedium
  | KrispLow
  | KrispHighWithBVC
  | KrispMediumWithBVC
deriving DecidableEq, Repr

instance : Inhabited NoiseSuppression := ⟨NoiseSuppression.Disabled⟩

/-- Transport modes, `enum TransportMode` (serde `rename_all = "lowercase"`). -/
inductive TransportMode where
  | WebTransport
  | WebRTC
deriving DecidableEq, Repr

instance : Inhabited TransportMode := ⟨TransportMode.WebTransport⟩

/-- Webcam resolutions, `enum WebcamResolution` (`Auto` serde-renamed
to "auto", the numeric variants keep their names). -/
inductive WebcamResolution where
  | Auto
  | P144
  | P240
  | P360
  | P480
  | P720
  | P1080
  | P1440
  | P2160
  | P4320
deriving DecidableEq, Repr

instance : Inhabited WebcamResolution := ⟨WebcamResolution.Auto⟩

/-! ## Client configuration and orchestrator plan
(src/orchestrator/src/config.rs)

`ClientConfig` models the fields of `client_simulator_config::Config`
that `OrchestratorConfig::effective_participant` reads or writes (the
version of the crate the orchestrator links against, which also carries
`screenshare_enabled`).  `Config::default()` in the source parses an
embedded `default-config.yaml` that is not part of the snapshot, so the
built-in default configuration is kept as an explicit parameter
`defaultClient` below and every statement quantifies over it. -/

/-- The orchestrator-facing fields of `client_simulator_config::Config`. -/
structure ClientConfig where
  url : Option String
  headless : Bool
  audio_enabled : Bool
  video_enabled : Bool
  screenshare_enabled : Bool
  noise_suppression : NoiseSuppression
  transport : TransportMode
  resolution : WebcamResolution
  blur : Bool
deriving DecidableEq, Repr

/-- `struct ParticipantDefaults`: the optional global `defaults` block. -/
structure ParticipantDefaults where
  headless : Option Bool := none
  audio_enabled : Option Bool := none
  video_enabled : Option Bool := none
  screenshare_enabled : Option Bool := none
  noise_suppression : Option NoiseSuppression := none
  transport : Option TransportMode := none
  resolution : Option WebcamResolution := none
  blur : Option Bool := none
  fake_media : Option String := none
deriving DecidableEq, Repr

/-- `struct ParticipantInitial`: the optional per-participant `initial`
override block.  It has no `headless` and no `transport` field. -/
structure ParticipantInitial where
  audio_enabled : Option Bool := none
  video_enabled : Option Bool := none
  screenshare_enabled : Option Bool := none
  blur : Option Bool := none
  noise_suppression : Option NoiseSuppression := none
  resolution : Option WebcamResolution := none
  fake_media : Option String := none
deriving DecidableEq, Repr

instance : Inhabited ParticipantInitial := ⟨{}⟩

/-- `struct ParticipantSpec`. -/
structure ParticipantSpec where
  username : Option String := none
  wait_to_join_seconds : Option Nat := none
  initial : Option ParticipantInitial := none
deriving DecidableEq, Repr

instance : Inhabited ParticipantSpec := ⟨{}⟩

/-- `struct OrchestratorConfig`: the declarative test plan.  Worker URLs
are modelled by their string form. -/
structure OrchestratorConfig where
  session_url : String
  workers : List String
  defaults : Option ParticipantDefaults := none
  participants_specs : Option (List ParticipantSpec) := none
  run_seconds : Option Nat := none
deriving DecidableEq, Repr

/-- `struct EffectiveParticipantConfig`: the derived per-participant
configuration. -/
structure EffectiveParticipantConfig where
  username : String
  client : ClientConfig
  remote_url : String
  fake_media : Option String
deriving DecidableEq, Repr

namespace OrchestratorConfig

/-- `OrchestratorConfig::total_participants`. -/
def total_participants (c : OrchestratorConfig) : Nat :=
  match c.participants_specs with
  | some specs => if specs.isEmpty then 0 else specs.length
  | none => 0

/-- `OrchestratorConfig::participant_spec`: the indexed spec, or a
default (all-`None`) spec when the list is absent or too short. -/
def participant_spec (c : OrchestratorConfig) (index : Nat) : ParticipantSpec :=
  (c.participants_specs.bind (fun v => v.get? index)).getD {}

/-- The `defaults`-block application inside `effective_participant`:
one field-by-field `if let Some(v)` override, in source order. -/
def applyDefaults (client : ClientConfig) : Option ParticipantDefaults → ClientConfig
  | none => client
  | some d =>
    let client := match d.audio_enabled with
      | some v => { client with audio_enabled := v }
      | none => client
    let client := match d.video_enabled with
      | some v => { client with video_enabled := v }
      | none => client
    let client := match d.screenshare_enabled with
      | some v => { client with screenshare_enabled := v }
      | none => client
    let client := match d.headless with
      | some v => { client with headless := v }
      | none => client
    let client := match d.noise_suppression with
      | some v => { client with noise_suppression := v }
      | none => client
    let client := match d.transport with
      | some v => { client with transport := v }
      | none => client
    let client := match d.resolution with
      | some v => { client with resolution := v }
      | none => client
    match d.blur with
      | some v => { client with blur := v }
      | none => client

/-- The `spec.initial`-block application inside `effective_participant`,
in source order. -/
def applyInitial (client : ClientConfig) : Option ParticipantInitial → ClientConfig
  | none => client
  | some init =>
    let client := match init.audio_enabled with
      | some v => { client with audio_enabled := v }
      | none => client
    let client := match init.video_enabled with
      | some v => { client with video_enabled := v }
      | none => client
    let client := match init.screenshare_enabled with
      | some v => { client with screenshare_enabled := v }
      | none => client
    let client := match init.noise_suppression with
      | some v => { client with noise_suppression := v }
      | none => client
    let client := match init.resolution with
      | some v => { client with resolution := v }
      | none => client
    match init.blur with
      | some v => { client with blur := v }
      | none => client

/-- `OrchestratorConfig::effective_participant`.  `defaultClient` stands
for `ClientConfig::default()` (whose concrete values come from a YAML
file outside the snapshot).  The Rust function returns `Result` and can
only fail (in fact panic, via `index % 0`) when `workers` is empty; this
is modelled by `Option`. -/
def effective_participant (defaultClient : ClientConfig) (c : OrchestratorConfig)
    (index : Nat) : Option EffectiveParticipantConfig :=
  match c.workers.get? (index % c.workers.length) with
  | none => none
  | some remote_url =>
    let client := { defaultClient with url := some c.session_url }
    let client := applyDefaults client c.defaults
    let spec := c.participant_spec index
    let client := applyInitial client spec.initial
    let username := spec.username.getD ("orch-" ++ toString index)
    let fake_media :=
      match spec.initial with
      | some init => init.fake_media
      | none => c.defaults.bind (fun d => d.fake_media)
    some { username := username, client := client, remote_url := remote_url,
           fake_media := fake_media }

/-- `OrchestratorConfig::validate`. -/
def validate (c : OrchestratorConfig) : Bool :=
  !c.workers.isEmpty && c.total_participants ≠ 0

end OrchestratorConfig

/-- Spec-side layering of the `fake_media` field, written after the
spec's words for comparison with the code: the value from
`participants_specs[i].initial` wins when present there, else the value
from `defaults` when present there, else the built-in default (`none`).
-/
def specLayeredFakeMedia (c : OrchestratorConfig) (index : Nat) : Option String :=
  match (c.participant_spec index).initial.bind (fun i => i.fake_media) with
  | some v => some v
  | none => c.defaults.bind (fun d => d.fake_media)

/-- Field-level layering order used by the claims: the `initial` value
when present, else the `defaults` value when present, else the built-in
default. -/
def layer2 {α : Type} (initOpt : Option α) (defOpt : Option α) (base : α) : α :=
  match initOpt with
  | some v => v
  | none =>
    match defOpt with
    | some v => v
    | none => base

/-! ## Page-acquisition retry
(`create_page_retry` in src/browser/src/participant/inner.rs lines
246-261 and, identically, src/browser/src/participant/inner_lite.rs
lines 252-267.)

`create_page` performs network/CDP work; it is modelled by an oracle
mapping the current value of the Rust `attempt` counter (0 on the first
call, incremented after each absorbed failure) to that call's outcome.
The backoff object only sleeps and is dropped from the model.  The
result is paired with the number of `create_page` calls performed.  The
loop body checks `attempt < 5` before retrying, so no run takes more
than 6 calls; `fuel = 6` therefore reproduces the loop exactly from the
initial `attempt = 0`. -/

section CreatePageRetry

variable {E P : Type}

/-- The retry loop of `create_page_retry`, with an explicit fuel (the
source loop is bounded by its own `attempt < 5` test). -/
def create_page_retry_go (oracle : Nat → Except E P) : Nat → Nat → Except E P × Nat
  | 0, attempt => (oracle attempt, 1)
  | fuel + 1, attempt =>
    match oracle attempt with
    | .ok page => (.ok page, 1)
    | .error e =>
      if attempt < 5 then
        let r := create_page_retry_go oracle fuel (attempt + 1)
        (r.1, r.2 + 1)
      else
        (.error e, 1)

/-- `create_page_retry`: run the loop from `attempt = 0`.  Fuel 6 is
enough for every reachable iteration. -/
def create_page_retry (oracle : Nat → Except E P) : Except E P × Nat :=
  create_page_retry_go oracle 6 0

end CreatePageRetry

/-! ## Cookie pool (src/src/browser/auth.rs)

Byte strings model Rust `String` values.  The `HashMap<Domain,
VecDeque<HyperSessionCookie>>` behind the pool's mutex is modelled as a
total map from domains to queues (`entry(..).or_default()` makes the
map total in the source as well); the front of the list is the front of
the deque. -/

/-- A Rust string/byte buffer, as its list of byte values. -/
abbrev ByteStr : Type := List Nat

/-- `struct HyperSessionCookie` (timestamps as integers; `chrono`
serialization is modelled later as an injective string codec). -/
structure HyperSessionCookie where
  domain : ByteStr
  created_at : Nat
  expires_at : Nat
  username : ByteStr
  cookie : ByteStr
deriving DecidableEq, Repr

/-- The in-memory table `available_cookies` of
`HyperSessionCookieManger`. -/
def CookieMap : Type := ByteStr → List HyperSessionCookie

/-- Point update of the cookie table. -/
def CookieMap.update (m : CookieMap) (d : ByteStr) (l : List HyperSessionCookie) :
    CookieMap :=
  fun x => if x = d then l else m x

/-- `struct BorrowedCookie` (the manager back-reference is the ambient
state threaded by hand). -/
structure BorrowedCookie where
  domain : ByteStr
  cookie : HyperSessionCookie
deriving DecidableEq, Repr

/-- `HyperSessionCookieManger::give_cookie`: pop one cookie from the
domain's queue front, or `None` when the queue is empty.  Returns the
borrowed cookie together with the updated pool state. -/
def give_cookie (m : CookieMap) (domain : ByteStr) :
    Option BorrowedCookie × CookieMap :=
  match m domain with
  | [] => (none, m)
  | c :: rest => (some ⟨domain, c⟩, m.update domain rest)

/-- `HyperSessionCookieManger::return_cookie`: push the cookie onto the
back of its domain's queue. -/
def return_cookie (m : CookieMap) (domain : ByteStr) (c : HyperSessionCookie) :
    CookieMap :=
  m.update domain (m domain ++ [c])

/-- `impl Drop for BorrowedCookie`: dropping the borrow returns the
cookie to the pool it came from. -/
def drop_borrowed (m : CookieMap) (b : BorrowedCookie) : CookieMap :=
  return_cookie m b.domain b.cookie

/-! ## Participant state, messages, dispatch
(src/browser/src/participant/state.rs, messages.rs, inner.rs,
inner_lite.rs) -/

/-- `struct ParticipantState`. -/
structure ParticipantState where
  username : String := ""
  running : Bool := false
  joined : Bool := false
  muted : Bool := false
  video_activated : Bool := false
  noise_suppression : NoiseSuppression := .Disabled
  transport_mode : TransportMode := .WebTransport
  webcam_resolution : WebcamResolution := .Auto
  background_blur : Bool := false
  screenshare_activated : Bool := false
deriving DecidableEq, Repr

instance : Inhabited ParticipantState := ⟨{}⟩

/-- `enum ParticipantMessage`: the closed command set. -/
inductive ParticipantMessage where
  | Join
  | Leave
  | Close
  | ToggleAudio
  | ToggleVideo
  | ToggleScreenshare
  | SetNoiseSuppression (value : NoiseSuppression)
  | SetWebcamResolutions (value : WebcamResolution)
  | ToggleBackgroundBlur
deriving DecidableEq, Repr

/-- The actions an actor's command-dispatch match can select. -/
inductive ActorAction where
  | join
  | leave
  | close
  | toggleAudio
  | toggleVideo
  | toggleScreenShare
  | setWebcamResolutions (value : WebcamResolution)
  | setNoiseSuppression (value : NoiseSuppression)
  | toggleBackgroundBlur
deriving DecidableEq, Repr

/-- The command-dispatch match of `ParticipantInner::handle_actions`
(src/browser/src/participant/inner.rs lines 173-185).  The source match
over `ParticipantMessage` has no arm for `ToggleScreenshare` (it is not
exhaustive over the crate's own enum); the missing arm is modelled by
`none`. -/
def inner_dispatch : ParticipantMessage → Option ActorAction
  | .Join => some .join
  | .Leave => some .leave
  | .Close => some .close
  | .ToggleAudio => some .toggleAudio
  | .ToggleVideo => some .toggleVideo
  | .SetWebcamResolutions v => some (.setWebcamResolutions v)
  | .SetNoiseSuppression v => some (.setNoiseSuppression v)
  | .ToggleBackgroundBlur => some .toggleBackgroundBlur
  | .ToggleScreenshare => none

/-- The command-dispatch match of `ParticipantInnerLite::handle_actions`
(src/browser/src/participant/inner_lite.rs lines 167-177), which has an
arm for every `ParticipantMessage` variant. -/
def inner_lite_dispatch : ParticipantMessage → Option ActorAction
  | .Join => some .join
  | .Leave => some .leave
  | .Close => some .close
  | .ToggleAudio => some .toggleAudio
  | .ToggleVideo => some .toggleVideo
  | .ToggleScreenshare => some .toggleScreenShare
  | .SetWebcamResolutions v => some (.setWebcamResolutions v)
  | .SetNoiseSuppression v => some (.setNoiseSuppression v)
  | .ToggleBackgroundBlur => some .toggleBackgroundBlur

/-! ## The full-frontend actor (src/browser/src/participant/inner.rs)

Every page/CDP interaction suspends and may fail; the browser is
modelled by oracles: a `JoinEnv` carries one outcome per step of
`ParticipantInner::join` plus the result of probing the page's controls
(`update_state`), and a `LoopEnv` carries the per-command outcomes of
one iteration of the command loop. -/

/-- The page interactions `ParticipantInner::join` performs, in order.
The trace of a run records which of them were attempted. -/
inductive PageOp where
  | setCookie
  | gotoSession
  | waitNameInput
  | fillName
  | waitJoinButton
  | applyAllSettings
  | clickJoinButton
  | waitJoinedMarker
  | probeControls
deriving DecidableEq, Repr

/-- The control values `update_state` reads back from the page.  Fields
it cannot read keep the defaults the source initialises them with. -/
structure ProbeResult where
  joined : Bool
  muted : Bool
  video_activated : Bool
  transport_mode : TransportMode
  webcam_resolution : WebcamResolution
  noise_suppression : NoiseSuppression
  background_blur : Bool
deriving DecidableEq, Repr

/-- `ParticipantInner::update_state`: re-derive the snapshot from the
probed control elements and `send_modify` it (the `running`,
`username` and `screenshare_activated` fields are not written). -/
def update_state (s : ParticipantState) (p : ProbeResult) : ParticipantState :=
  { s with
    joined := p.joined
    muted := p.muted
    video_activated := p.video_activated
    transport_mode := p.transport_mode
    webcam_resolution := p.webcam_resolution
    noise_suppression := p.noise_suppression
    background_blur := p.background_blur }

/-- Oracle for one run of `ParticipantInner::join`: the outcome of each
fallible page interaction, and the probe for the final `update_state`.
-/
structure JoinEnv (E : Type) where
  set_cookie : Except E Unit
  goto : Except E Unit
  wait_name_input : Except E Unit
  fill_name : Except E Unit
  wait_join_button : Except E Unit
  apply_all_settings : Except E Unit
  click_join_button : Except E Unit
  wait_joined_marker : Except E Unit
  probe : ProbeResult

/-- `ParticipantInner::join` (src/browser/src/participant/inner.rs lines
280-351): no-op with a warning when the snapshot already says `joined`;
otherwise set the auth cookie, navigate, fill the name, wait for the
join button, apply settings (failures absorbed), click join, wait for
the joined marker, then `update_state`.  Returns the result, the new
state and the trace of attempted page interactions. -/
def inner_join {E : Type} (env : JoinEnv E) (s : ParticipantState) :
    Except E Unit × ParticipantState × List PageOp :=
  if s.joined then
    (.ok (), s, [])
  else
    match env.set_cookie with
    | .error e => (.error e, s, [.setCookie])
    | .ok _ =>
      match env.goto with
      | .error e => (.error e, s, [.setCookie, .gotoSession])
      | .ok _ =>
        match env.wait_name_input with
        | .error e => (.error e, s, [.setCookie, .gotoSession, .waitNameInput])
        | .ok _ =>
          match env.fill_name with
          | .error e =>
            (.error e, s, [.setCookie, .gotoSession, .waitNameInput, .fillName])
          | .ok _ =>
            match env.wait_join_button with
            | .error e =>
              (.error e, s,
                [.setCookie, .gotoSession, .waitNameInput, .fillName,
                 .waitJoinButton])
            | .ok _ =>
              -- `apply_all_settings` failures are only logged.
              match env.click_join_button with
              | .error e =>
                (.error e, s,
                  [.setCookie, .gotoSession, .waitNameInput, .fillName,
                   .waitJoinButton, .applyAllSettings, .clickJoinButton])
              | .ok _ =>
                match env.wait_joined_marker with
                | .error e =>
                  (.error e, s,
                    [.setCookie, .gotoSession, .waitNameInput, .fillName,
                     .waitJoinButton, .applyAllSettings, .clickJoinButton,
                     .waitJoinedMarker])
                | .ok _ =>
                  (.ok (), update_state s env.probe,
                    [.setCookie, .gotoSession, .waitNameInput, .fillName,
                     .waitJoinButton, .applyAllSettings, .clickJoinButton,
                     .waitJoinedMarker, .probeControls])

/-- Oracle for one iteration of the command loop: the join oracle used
when the message is `Join`, the outcome of the clicked/set action for
the other non-`Close` messages, the result of `Browser::close` on the
`Close` path, and the probe for the `update_state` that closes the
iteration. -/
structure LoopEnv (E : Type) where
  joinEnv : JoinEnv E
  actionResult : Except E Unit
  closeResult : Except E Unit
  probe : ProbeResult

/-- One non-`Close` command of the loop body of
`ParticipantInner::handle_actions`: dispatch the message (the source
match has no `ToggleScreenshare` arm; an undispatchable message has no
effect), log-and-absorb the action's error, then `update_state`. -/
def inner_loop_step {E : Type} (env : LoopEnv E) (s : ParticipantState)
    (message : ParticipantMessage) : ParticipantState :=
  let s1 :=
    match inner_dispatch message with
    | some .join => (inner_join env.joinEnv s).2.1
    | _ => s
  update_state s1 env.probe

/-- The command loop of `ParticipantInner::handle_actions` over a finite
sequence of received messages (the oracle of iteration `k` is
`envs k`).  `Close` runs `ParticipantInner::close` — leave and page
close best-effort, then `Browser::close`, whose failure propagates out
of the loop and whose success marks `running := false` — and is the
only message that ends the loop; a run that exhausts the modelled
message list is still waiting and is reported as-is.  The middle
component records whether the browser process was killed. -/
def inner_loop {E : Type} (envs : Nat → LoopEnv E) :
    Nat → ParticipantState → List ParticipantMessage →
    ParticipantState × Bool × Except E Unit
  | _, s, [] => (s, false, .ok ())
  | k, s, message :: rest =>
    let env := envs k
    match message with
    | .Close =>
      match env.closeResult with
      | .ok _ => ({ s with running := false }, false, .ok ())
      | .error e => (s, false, .error e)
    | m => inner_loop envs (k + 1) (inner_loop_step env s m) rest

/-- `ParticipantInner::handle_actions` (src/browser/src/participant/
inner.rs lines 125-197): set `running := true`, run the initial `join`;
when it fails, kill the browser, set `running := false` and return
`Ok(())` (the failure is absorbed); otherwise enter the command loop.
The middle component of the result records whether the browser process
was killed. -/
def handle_actions {E : Type} (env0 : JoinEnv E) (envs : Nat → LoopEnv E)
    (s : ParticipantState) (msgs : List ParticipantMessage) :
    ParticipantState × Bool × Except E Unit :=
  let s := { s with running := true }
  match inner_join env0 s with
  | (.error _, _, _) => ({ s with running := false }, true, .ok ())
  | (.ok _, s1, _) => inner_loop envs 0 s1 msgs

/-! ## Participant handle guards (src/browser/src/participant/mod.rs) -/

/-- `Participant::join` (lines 208-221): sends `Join` to the actor only
when the observed snapshot is `running` and not yet `joined`; returns
the message put on the queue, `none` when nothing is sent. -/
def participant_join (s : ParticipantState) : Option ParticipantMessage :=
  if !s.running then none
  else if s.joined then none
  else some .Join

/-- `Participant::close` (lines 195-207): sends `Close` only when the
observed snapshot is `running`. -/
def participant_close (s : ParticipantState) : Option ParticipantMessage :=
  if !s.running then none
  else some .Close

/-- `Participant::send_message` (lines 223-242): `Join` is delegated to
`Participant::join`; any other message is forwarded only when the
observed snapshot is `running` and `joined`, and silently dropped
otherwise. -/
def send_message (s : ParticipantState) (message : ParticipantMessage) :
    Option ParticipantMessage :=
  match message with
  | .Join => participant_join s
  | _ =>
    if !s.running then none
    else if !s.joined then none
    else some message

/-! ## The worker connection loop (src/http/src/participant.rs)

The actor publishes its state through a `tokio::sync::watch` channel:
a single slot holding the latest value and a version counter.
`watch::Sender::send_modify` overwrites the value and bumps the version
unconditionally; `watch::Receiver::changed`/`borrow_and_update` resolve
exactly when the slot's version differs from the last version the
receiver marked as seen.  `handle_socket_inner` (lines 143-148) sends a
`ParticipantResponseMessage::from_state` frame each time `rx.changed()`
resolves.  The model below runs the loop under the schedule in which
the select observes the channel after every actor write. -/

/-- A `tokio::sync::watch` slot: last value plus version counter. -/
structure Watch (σ : Type) where
  value : σ
  version : Nat

/-- `watch::Sender::send_modify`: overwrite the value, bump the
version, notify receivers — whether or not the new value equals the old
one. -/
def Watch.send_modify {σ : Type} (w : Watch σ) (f : σ → σ) : Watch σ :=
  ⟨f w.value, w.version + 1⟩

/-- `watch::Receiver::changed` + `borrow_and_update`, as one observation
step: when the slot's version differs from the receiver's seen version,
yield the value and mark it seen. -/
def Watch.observe {σ : Type} (w : Watch σ) (seen : Nat) : Option σ × Nat :=
  if w.version ≠ seen then (some w.value, w.version) else (none, seen)

/-- The state-only frames `handle_socket_inner` sends, for a sequence of
actor `send_modify` writes, under the schedule in which the select's
`rx.changed()` branch runs after each write. -/
def server_state_frames_go {σ : Type} (w : Watch σ) (seen : Nat) :
    List (σ → σ) → List σ
  | [] => []
  | f :: rest =>
    let w1 := w.send_modify f
    match w1.observe seen with
    | (some v, seen1) => v :: server_state_frames_go w1 seen1 rest
    | (none, seen1) => server_state_frames_go w1 seen1 rest

/-- The outbound state-only frames of a connection whose participant
starts at snapshot `s0` (receiver cloned before any write, so its seen
version is the slot's). -/
def server_state_frames (s0 : ParticipantState)
    (writes : List (ParticipantState → ParticipantState)) :
    List ParticipantState :=
  server_state_frames_go ⟨s0, 0⟩ 0 writes

/-- The per-write snapshots of a write sequence: the value held by the
watch slot after each `send_modify`. -/
def write_values {σ : Type} (s0 : σ) : List (σ → σ) → List σ
  | [] => []
  | f :: rest => f s0 :: write_values (f s0) rest

/-! ## The wire form of `ParticipantConfigQuery`
(src/browser/src/participant/transport_data.rs)

`into_url` serializes the query with `serde_json::to_string`, base64
encodes the bytes (standard alphabet, padded) and attaches the result
as the `payload` connection parameter; `TryFrom<String>` base64 decodes
and runs `serde_json::from_slice`.  The JSON documents produced here
contain only strings, booleans, `null` and objects (the `chrono` and
`url` values serialize as strings), so the syntax tree needs exactly
those four forms.  `serde_json` is modelled executably: a byte-level
renderer (compact, `"`/`\` escaped) and a fuelled recursive-descent
parser for the same fragment. -/

/-- All byte values of a buffer are valid `u8` values. -/
def bytesValid (bs : List Nat) : Bool :=
  bs.all (fun b => b < 256)

/- JSON syntax trees of the fragment `serde_json` produces for
`ParticipantConfigQuery`, with object member lists as a mutual
inductive. -/
mutual
inductive Json where
  | null : Json
  | bool (b : Bool) : Json
  | str (s : ByteStr) : Json
  | obj (fields : JFields) : Json
inductive JFields where
  | nil : JFields
  | cons (key : ByteStr) (value : Json) (rest : JFields) : JFields
end

/- Structural size of a JSON tree, used as parser fuel bound. -/
mutual
def jsize : Json → Nat
  | .null => 1
  | .bool _ => 1
  | .str _ => 1
  | .obj fs => fsize fs + 1
def fsize : JFields → Nat
  | .nil => 1
  | .cons _ v rest => jsize v + fsize rest + 1
end

/-- String-body escaping of the JSON renderer: `"` (34) and `\` (92)
are prefixed with a backslash, every other byte passes through. -/
def escapeBytes : ByteStr → ByteStr
  | [] => []
  | b :: rest =>
    if b = 34 ∨ b = 92 then 92 :: b :: escapeBytes rest
    else b :: escapeBytes rest

/-- A rendered JSON string literal: quote, escaped body, quote. -/
def renderString (s : ByteStr) : ByteStr :=
  34 :: escapeBytes s ++ [34]

/- The compact JSON renderer (`serde_json::to_string`): byte output,
no whitespace, object members in serialization order. -/
mutual
def renderJson : Json → ByteStr
  | .null => [110, 117, 108, 108]
  | .bool true => [116, 114, 117, 101]
  | .bool false => [102, 97, 108, 115, 101]
  | .str s => renderString s
  | .obj fs => 123 :: renderFields fs ++ [125]
def renderFields : JFields → ByteStr
  | .nil => []
  | .cons k v .nil => renderString k ++ 58 :: renderJson v
  | .cons k v (.cons k2 v2 rest) =>
    (renderString k ++ 58 :: renderJson v) ++
      44 :: renderFields (.cons k2 v2 rest)
end

/-- Parse the body of a JSON string literal (after the opening quote),
undoing `escapeBytes`; returns the body and the remaining input. -/
def parseStringBody : ByteStr → Option (ByteStr × ByteStr)
  | [] => none
  | b :: rest =>
    if b = 34 then some ([], rest)
    else if b = 92 then
      match rest with
      | [] => none
      | c :: rest2 =>
        (parseStringBody rest2).map (fun r => (c :: r.1, r.2))
    else
      (parseStringBody rest).map (fun r => (b :: r.1, r.2))

/- Recursive-descent JSON parser for the rendered fragment, fuelled by
an upper bound on the tree size; returns the value and the remaining
input. -/
mutual
def parseValue : Nat → ByteStr → Option (Json × ByteStr)
  | 0, _ => none
  | fuel + 1, input =>
    match input with
    | 110 :: 117 :: 108 :: 108 :: rest => some (.null, rest)
    | 116 :: 114 :: 117 :: 101 :: rest => some (.bool true, rest)
    | 102 :: 97 :: 108 :: 115 :: 101 :: rest => some (.bool false, rest)
    | 34 :: rest =>
      (parseStringBody rest).map (fun r => (.str r.1, r.2))
    | 123 :: 125 :: rest => some (.obj .nil, rest)
    | 123 :: rest =>
      (parseMembers fuel rest).map (fun r => (.obj r.1, r.2))
    | _ => none
def parseMembers : Nat → ByteStr → Option (JFields × ByteStr)
  | 0, _ => none
  | fuel + 1, input =>
    match input with
    | 34 :: rest =>
      match parseStringBody rest with
      | none => none
      | some (k, r1) =>
        match r1 with
        | 58 :: r2 =>
          match parseValue fuel r2 with
          | none => none
          | some (v, r3) =>
            match r3 with
            | 44 :: r4 =>
              (parseMembers fuel r4).map (fun r => (.cons k v r.1, r.2))
            | 125 :: r4 => some (.cons k v .nil, r4)
            | _ => none
        | _ => none
    | _ => none
end

/-! ## Base64 (the `base64` crate, `BASE64_STANDARD`)

Standard alphabet with `=` (61) padding; three input bytes become four
alphabet bytes.  The decoder inverts the encoder (it accepts exactly the
canonical chunk shapes the encoder emits, trailing bits left
unchecked). -/

/-- The standard-alphabet byte of a six-bit group. -/
def sextetChar (s : Nat) : Nat :=
  if s < 26 then 65 + s
  else if s < 52 then 97 + (s - 26)
  else if s < 62 then 48 + (s - 52)
  else if s = 62 then 43
  else 47

/-- The six-bit group of a standard-alphabet byte. -/
def sextetOfChar (b : Nat) : Option Nat :=
  if 65 ≤ b ∧ b ≤ 90 then some (b - 65)
  else if 97 ≤ b ∧ b ≤ 122 then some (b - 97 + 26)
  else if 48 ≤ b ∧ b ≤ 57 then some (b - 48 + 52)
  else if b = 43 then some 62
  else if b = 47 then some 63
  else none

/-- Base64 encoding (standard alphabet, padded). -/
def b64encode : List Nat → List Nat
  | a :: b :: c :: rest =>
    sextetChar (a / 4) ::
    sextetChar (a % 4 * 16 + b / 16) ::
    sextetChar (b % 16 * 4 + c / 64) ::
    sextetChar (c % 64) :: b64encode rest
  | [a, b] =>
    [sextetChar (a / 4), sextetChar (a % 4 * 16 + b / 16),
     sextetChar (b % 16 * 4), 61]
  | [a] => [sextetChar (a / 4), sextetChar (a % 4 * 16), 61, 61]
  | [] => []

/-- Base64 decoding (standard alphabet, padded). -/
def b64decode : List Nat → Option (List Nat)
  | [] => some []
  | c0 :: c1 :: c2 :: c3 :: rest =>
    match sextetOfChar c0, sextetOfChar c1 with
    | some s0, some s1 =>
      if c2 = 61 then
        if c3 = 61 ∧ rest = [] then some [s0 * 4 + s1 / 16] else none
      else
        match sextetOfChar c2 with
        | some s2 =>
          if c3 = 61 then
            if rest = [] then
              some [s0 * 4 + s1 / 16, s1 % 16 * 16 + s2 / 4]
            else none
          else
            match sextetOfChar c3 with
            | some s3 =>
              (b64decode rest).map
                (fun bs =>
                  (s0 * 4 + s1 / 16) ::
                  (s1 % 16 * 16 + s2 / 4) ::
                  (s2 % 4 * 64 + s3) :: bs)
            | none => none
        | none => none
    | _, _ => none
  | _ => none

/-! ## Serde codecs for the query's field types -/

/-- The byte form of an ASCII key/name literal. -/
def keyBytes (s : String) : ByteStr :=
  s.toList.map Char.toNat

/-- The decimal string bytes of a natural number (the injective string
codec standing for `chrono`'s timestamp serialization). -/
def decimalBytes (n : Nat) : ByteStr :=
  if n = 0 then [48] else (Nat.digits 10 n).reverse.map (fun d => d + 48)

/-- Parse decimal string bytes back to a natural number. -/
def parseDecimal (bs : ByteStr) : Option Nat :=
  if bs = [] then none
  else if bs.all (fun b => 48 ≤ b ∧ b ≤ 57) then
    some (bs.foldl (fun acc b => acc * 10 + (b - 48)) 0)
  else none

/-- The serde name of a `NoiseSuppression` variant (its
`#[serde(rename)]`). -/
def NoiseSuppression.serdeName : NoiseSuppression → String
  | .Disabled => "none"
  | .Deepfilternet => "deepfilternet"
  | .RNNoise => "rnnoise"
  | .IRISShepherd => "iris-shepherd"
  | .KrispHigh => "krisp-high"
  | .KrispMedium => "krisp-medium"
  | .KrispLow => "krisp-low"
  | .KrispHighWithBVC => "krisp-high-with-bvc"
  | .KrispMediumWithBVC => "krisp-medium-with-bvc"

/-- Deserialize a `NoiseSuppression` variant from its serde name. -/
def NoiseSuppression.ofSerdeName (s : ByteStr) : Option NoiseSuppression :=
  if s = keyBytes ("none") then some .Disabled
  else if s = keyBytes ("deepfilternet") then some .Deepfilternet
  else if s = keyBytes ("rnnoise") then some .RNNoise
  else if s = keyBytes ("iris-shepherd") then some .IRISShepherd
  else if s = keyBytes ("krisp-high") then some .KrispHigh
  else if s = keyBytes ("krisp-medium") then some .KrispMedium
  else if s = keyBytes ("krisp-low") then some .KrispLow
  else if s = keyBytes ("krisp-high-with-bvc") then some .KrispHighWithBVC
  else if s = keyBytes ("krisp-medium-with-bvc") then some .KrispMediumWithBVC
  else none

/-- The serde name of a `TransportMode` variant
(`rename_all = "lowercase"`). -/
def TransportMode.serdeName : TransportMode → String
  | .WebTransport => "webtransport"
  | .WebRTC => "webrtc"

/-- Deserialize a `TransportMode` variant from its serde name. -/
def TransportMode.ofSerdeName (s : ByteStr) : Option TransportMode :=
  if s = keyBytes ("webtransport") then some .WebTransport
  else if s = keyBytes ("webrtc") then some .WebRTC
  else none

/-- The serde name of a `WebcamResolution` variant (`Auto` renamed to
"auto", the rest keep their variant names). -/
def WebcamResolution.serdeName : WebcamResolution → String
  | .Auto => "auto"
  | .P144 => "P144"
  | .P240 => "P240"
  | .P360 => "P360"
  | .P480 => "P480"
  | .P720 => "P720"
  | .P1080 => "P1080"
  | .P1440 => "P1440"
  | .P2160 => "P2160"
  | .P4320 => "P4320"

/-- Deserialize a `WebcamResolution` variant from its serde name. -/
def WebcamResolution.ofSerdeName (s : ByteStr) : Option WebcamResolution :=
  if s = keyBytes ("auto") then some .Auto
  else if s = keyBytes ("P144") then some .P144
  else if s = keyBytes ("P240") then some .P240
  else if s = keyBytes ("P360") then some .P360
  else if s = keyBytes ("P480") then some .P480
  else if s = keyBytes ("P720") then some .P720
  else if s = keyBytes ("P1080") then some .P1080
  else if s = keyBytes ("P1440") then some .P1440
  else if s = keyBytes ("P2160") then some .P2160
  else if s = keyBytes ("P4320") then some .P4320
  else none

/-- `enum FakeMediaQuery` (transport_data.rs): `None`, `Builtin`, or a
URL (the `url::Url` modelled by its canonical string bytes). -/
inductive FakeMediaQuery where
  | None
  | Builtin
  | Url (u : ByteStr)
deriving DecidableEq, Repr

/-- Externally tagged serde form of a `FakeMediaQuery`: unit variants
become their name as a string, the newtype variant becomes a one-member
object. -/
def FakeMediaQuery.toJson : FakeMediaQuery → Json
  | .None => .str (keyBytes ("None"))
  | .Builtin => .str (keyBytes ("Builtin"))
  | .Url u => .obj (.cons (keyBytes ("Url")) (.str u) .nil)

/-- Deserialize a `FakeMediaQuery` from its externally tagged form. -/
def FakeMediaQuery.fromJson : Json → Option FakeMediaQuery
  | .str s =>
    if s = keyBytes ("None") then some .None
    else if s = keyBytes ("Builtin") then some .Builtin
    else none
  | .obj (.cons k (.str u) .nil) =>
    if k = keyBytes ("Url") then some (.Url u) else none
  | _ => none

/-- Serde form of a `HyperSessionCookie` (all five fields, in
declaration order; the timestamps as their string codec). -/
def HyperSessionCookie.toJson (c : HyperSessionCookie) : Json :=
  .obj
    (.cons (keyBytes ("domain")) (.str c.domain)
      (.cons (keyBytes ("created_at")) (.str (decimalBytes c.created_at))
        (.cons (keyBytes ("expires_at")) (.str (decimalBytes c.expires_at))
          (.cons (keyBytes ("username")) (.str c.username)
            (.cons (keyBytes ("cookie")) (.str c.cookie) .nil)))))

/-- Look an object member up by key (serde deserializes structs by
field name). -/
def lookupField : JFields → ByteStr → Option Json
  | .nil, _ => none
  | .cons k v rest, key => if k = key then some v else lookupField rest key

/-- Read a JSON string. -/
def Json.asStr : Json → Option ByteStr
  | .str s => some s
  | _ => none

/-- Read a JSON boolean. -/
def Json.asBool : Json → Option Bool
  | .bool b => some b
  | _ => none

/-- Read an optional value: `null` is `None`, otherwise the inner
decoder applies. -/
def Json.asOpt {α : Type} (f : Json → Option α) : Json → Option (Option α)
  | .null => some none
  | j => (f j).map some

/-- Deserialize a `HyperSessionCookie`. -/
def HyperSessionCookie.fromJson (j : Json) : Option HyperSessionCookie :=
  match j with
  | .obj fs => do
    let domain ← (lookupField fs (keyBytes ("domain"))).bind Json.asStr
    let created_at ←
      ((lookupField fs (keyBytes ("created_at"))).bind Json.asStr).bind parseDecimal
    let expires_at ←
      ((lookupField fs (keyBytes ("expires_at"))).bind Json.asStr).bind parseDecimal
    let username ← (lookupField fs (keyBytes ("username"))).bind Json.asStr
    let cookie ← (lookupField fs (keyBytes ("cookie"))).bind Json.asStr
    some ⟨domain, created_at, expires_at, username, cookie⟩
  | _ => none

/-- `struct ParticipantConfigQuery` (transport_data.rs lines 74-89):
the wire-transmissible participant configuration.  `String` and `Url`
fields are byte strings. -/
structure ParticipantConfigQuery where
  username : ByteStr
  remote_url : ByteStr
  session_url : ByteStr
  base_url : ByteStr
  cookie : Option HyperSessionCookie
  fake_media : Option FakeMediaQuery
  audio_enabled : Bool
  video_enabled : Bool
  headless : Bool
  screenshare_enabled : Bool
  noise_suppression : NoiseSuppression
  transport : TransportMode
  resolution : WebcamResolution
  blur : Bool
deriving DecidableEq, Repr

/-- Serde form of a `ParticipantConfigQuery`: one object, fields in
declaration order, `Option` fields as `null`/value. -/
def ParticipantConfigQuery.toJson (q : ParticipantConfigQuery) : Json :=
  .obj
    (.cons (keyBytes ("username")) (.str q.username)
      (.cons (keyBytes ("remote_url")) (.str q.remote_url)
        (.cons (keyBytes ("session_url")) (.str q.session_url)
          (.cons (keyBytes ("base_url")) (.str q.base_url)
            (.cons (keyBytes ("cookie"))
                (match q.cookie with
                 | some c => c.toJson
                 | none => .null)
              (.cons (keyBytes ("fake_media"))
                  (match q.fake_media with
                   | some f => f.toJson
                   | none => .null)
                (.cons (keyBytes ("audio_enabled")) (.bool q.audio_enabled)
                  (.cons (keyBytes ("video_enabled")) (.bool q.video_enabled)
                    (.cons (keyBytes ("headless")) (.bool q.headless)
                      (.cons (keyBytes ("screenshare_enabled"))
                          (.bool q.screenshare_enabled)
                        (.cons (keyBytes ("noise_suppression"))
                            (.str (keyBytes q.noise_suppression.serdeName))
                          (.cons (keyBytes ("transport"))
                              (.str (keyBytes q.transport.serdeName))
                            (.cons (keyBytes ("resolution"))
                                (.str (keyBytes q.resolution.serdeName))
                              (.cons (keyBytes ("blur")) (.bool q.blur)
                                .nil))))))))))))))

/-- Deserialize a `ParticipantConfigQuery` from its serde form. -/
def ParticipantConfigQuery.fromJson (j : Json) : Option ParticipantConfigQuery :=
  match j with
  | .obj fs => do
    let username ← (lookupField fs (keyBytes ("username"))).bind Json.asStr
    let remote_url ← (lookupField fs (keyBytes ("remote_url"))).bind Json.asStr
    let session_url ← (lookupField fs (keyBytes ("session_url"))).bind Json.asStr
    let base_url ← (lookupField fs (keyBytes ("base_url"))).bind Json.asStr
    let cookie ←
      (lookupField fs (keyBytes ("cookie"))).bind
        (Json.asOpt HyperSessionCookie.fromJson)
    let fake_media ←
      (lookupField fs (keyBytes ("fake_media"))).bind
        (Json.asOpt FakeMediaQuery.fromJson)
    let audio_enabled ← (lookupField fs (keyBytes ("audio_enabled"))).bind Json.asBool
    let video_enabled ← (lookupField fs (keyBytes ("video_enabled"))).bind Json.asBool
    let headless ← (lookupField fs (keyBytes ("headless"))).bind Json.asBool
    let screenshare_enabled ←
      (lookupField fs (keyBytes ("screenshare_enabled"))).bind Json.asBool
    let noise_suppression ←
      ((lookupField fs (keyBytes ("noise_suppression"))).bind Json.asStr).bind
        NoiseSuppression.ofSerdeName
    let transport ←
      ((lookupField fs (keyBytes ("transport"))).bind Json.asStr).bind
        TransportMode.ofSerdeName
    let resolution ←
      ((lookupField fs (keyBytes ("resolution"))).bind Json.asStr).bind
        WebcamResolution.ofSerdeName
    let blur ← (lookupField fs (keyBytes ("blur"))).bind Json.asBool
    some ⟨username, remote_url, session_url, base_url, cookie, fake_media,
          audio_enabled, video_enabled, headless, screenshare_enabled,
          noise_suppression, transport, resolution, blur⟩
  | _ => none

/-- The `payload` token `ParticipantConfigQuery::into_url` attaches to
the worker URL: serialize with `serde_json::to_string`, then base64
encode the bytes. -/
def into_url_payload (q : ParticipantConfigQuery) : List Nat :=
  b64encode (renderJson q.toJson)

/-- `TryFrom<String> for ParticipantConfigQuery`: base64 decode the
token, then `serde_json::from_slice` (parse the whole buffer, then
build the struct). -/
def try_from_payload (s : List Nat) : Option ParticipantConfigQuery :=
  match b64decode s with
  | none => none
  | some bytes =>
    match parseValue (bytes.length + 1) bytes with
    | some (j, []) => ParticipantConfigQuery.fromJson j
    | _ => none

/-- Well-formedness of a query: every byte of every string buffer in it
is a valid `u8` (true of every value coming from Rust). -/
def ParticipantConfigQuery.valid (q : ParticipantConfigQuery) : Bool :=
  bytesValid q.username && bytesValid q.remote_url &&
  bytesValid q.session_url && bytesValid q.base_url &&
  (match q.cookie with
   | some c =>
     bytesValid c.domain && bytesValid c.username && bytesValid c.cookie
   | none => true) &&
  (match q.fake_media with
   | some (.Url u) => bytesValid u
   | _ => true)

/- Well-formedness of a JSON tree: every string buffer holds valid
`u8` values (true of everything `serde_json` produces from Rust). -/
mutual
def jsonValid : Json → Bool
  | .null => true
  | .bool _ => true
  | .str s => bytesValid s
  | .obj fs => fieldsValid fs
def fieldsValid : JFields → Bool
  | .nil => true
  | .cons k v rest => bytesValid k && jsonValid v && fieldsValid rest
end

/-! ## Concrete fixtures used by witnesses and counterexamples -/

/-- A concrete stand-in for the built-in `ClientConfig::default()`. -/
def builtinClient0 : ClientConfig :=
  { url := none, headless := false, audio_enabled := false,
    video_enabled := false, screenshare_enabled := false,
    noise_suppression := .Disabled, transport := .WebTransport,
    resolution := .Auto, blur := false }

/-- A plan whose participant 0 has an `initial` block that leaves
`fake_media` unset while the global `defaults` block sets it. -/
def cfgFakeMedia : OrchestratorConfig :=
  { session_url := "https://meet.example/s"
    workers := ["ws://worker-a"]
    defaults := some { fake_media := some "builtin" }
    participants_specs := some [{ initial := some {} }] }

/-- A three-worker, five-participant plan. -/
def cfgThreeWorkers : OrchestratorConfig :=
  { session_url := "https://meet.example/s"
    workers := ["ws://a", "ws://b", "ws://c"]
    participants_specs := some [{}, {}, {}, {}, {}] }

/-- A concrete session cookie. -/
def cookieEx : HyperSessionCookie :=
  { domain := [104], created_at := 7, expires_at := 11,
    username := [111], cookie := [99] }

/-- A concrete wire query carrying a cookie, a fake-media URL and
non-default flags. -/
def queryEx : ParticipantConfigQuery :=
  { username := [111, 114, 99]
    remote_url := [119, 115]
    session_url := [104]
    base_url := [104]
    cookie := some cookieEx
    fake_media := some (.Url [117])
    audio_enabled := true
    video_enabled := false
    headless := true
    screenshare_enabled := false
    noise_suppression := .KrispHigh
    transport := .WebRTC
    resolution := .P720
    blur := true }

/-- A join oracle whose every page interaction succeeds. -/
def joinEnvOk : JoinEnv Unit :=
  { set_cookie := .ok (), goto := .ok (), wait_name_input := .ok ()
    fill_name := .ok (), wait_join_button := .ok ()
    apply_all_settings := .ok (), click_join_button := .ok ()
    wait_joined_marker := .ok ()
    probe := { joined := true, muted := false, video_activated := false,
               transport_mode := .WebTransport, webcam_resolution := .Auto,
               noise_suppression := .Disabled, background_blur := false } }

/-- A join oracle whose first page interaction fails. -/
def joinEnvFail : JoinEnv Unit :=
  { joinEnvOk with set_cookie := .error () }

/-- A loop oracle whose every interaction succeeds. -/
def loopEnvOk : LoopEnv Unit :=
  { joinEnv := joinEnvOk, actionResult := .ok (), closeResult := .ok ()
    probe := joinEnvOk.probe }

/-- The state write `running := true` (the first write
`handle_actions` performs, repeated to exhibit a value-preserving
write). -/
def writeRunningTrue : ParticipantState → ParticipantState :=
  fun s => { s with running := true }

/-! ## Helper lemmas -/

/-- `applyDefaults` on an absent `defaults` block. -/
theorem applyDefaults_none (client : ClientConfig) :
    OrchestratorConfig.applyDefaults client none = client := rfl

/-- `applyInitial` on an absent `initial` block. -/
theorem applyInitial_none (client : ClientConfig) :
    OrchestratorConfig.applyInitial client none = client := rfl

/-- `layer2` is an iterated `Option.getD`. -/
theorem layer2_eq_getD {α : Type} (i d : Option α) (b : α) :
    layer2 i d b = i.getD (d.getD b) := by
  cases i <;> cases d <;> rfl

/-- Shape of `applyDefaults` on a present `defaults` block. -/
theorem applyDefaults_some (client : ClientConfig) (d : ParticipantDefaults) :
    OrchestratorConfig.applyDefaults client (some d) =
      { client with
        audio_enabled := d.audio_enabled.getD client.audio_enabled
        video_enabled := d.video_enabled.getD client.video_enabled
        screenshare_enabled := d.screenshare_enabled.getD client.screenshare_enabled
        headless := d.headless.getD client.headless
        noise_suppression := d.noise_suppression.getD client.noise_suppression
        transport := d.transport.getD client.transport
        resolution := d.resolution.getD client.resolution
        blur := d.blur.getD client.blur } := by
  obtain ⟨h1, h2, h3, h4, h5, h6, h7, h8, h9⟩ := d
  cases h1 <;> cases h2 <;> cases h3 <;> cases h4 <;> cases h5 <;> cases h6 <;>
    cases h7 <;> cases h8 <;> rfl

/-- Shape of `applyInitial` on a present `initial` block. -/
theorem applyInitial_some (client : ClientConfig) (init : ParticipantInitial) :
    OrchestratorConfig.applyInitial client (some init) =
      { client with
        audio_enabled := init.audio_enabled.getD client.audio_enabled
        video_enabled := init.video_enabled.getD client.video_enabled
        screenshare_enabled := init.screenshare_enabled.getD client.screenshare_enabled
        noise_suppression := init.noise_suppression.getD client.noise_suppression
        resolution := init.resolution.getD client.resolution
        blur := init.blur.getD client.blur } := by
  obtain ⟨h1, h2, h3, h4, h5, h6, h7⟩ := init
  cases h1 <;> cases h2 <;> cases h3 <;> cases h4 <;> cases h5 <;> cases h6 <;> rfl

/-! ## C1: effective-config layering -/

/-- C1 counterexample: in `cfgFakeMedia`, participant 0's `initial`
block is present but leaves `fake_media` unset, and `defaults` sets it
to "builtin"; strict field-level layering predicts "builtin"
(`specLayeredFakeMedia`), yet `effective_participant` yields `none` —
the claimed layering order does not hold for `fake_media`. -/
theorem c1_fake_media_counterexample :
    (cfgFakeMedia.effective_participant builtinClient0 0).map
        (fun e => e.fake_media) ≠
      some (specLayeredFakeMedia cfgFakeMedia 0) := by
  decide

/-- C1 (amended): for every built-in default, plan and index with a
non-empty worker list, `effective_participant` layers every
`ClientConfig` field in the claimed order — `initial` over `defaults`
over built-in (fields absent from the `initial` struct layer from
`defaults` alone) — while `fake_media` is governed by the whole
`initial` block: when the block is present its (possibly absent)
`fake_media` is taken as-is, and `defaults.fake_media` applies only
when the participant has no `initial` block. -/
theorem c1_layering_amended (dc : ClientConfig) (c : OrchestratorConfig) (i : Nat)
    (h : c.workers ≠ []) :
    ∃ e, c.effective_participant dc i = some e ∧
      (e.client.url = some c.session_url ∧
       e.client.audio_enabled =
         layer2 ((c.participant_spec i).initial.bind (fun x => x.audio_enabled))
           (c.defaults.bind (fun x => x.audio_enabled)) dc.audio_enabled ∧
       e.client.video_enabled =
         layer2 ((c.participant_spec i).initial.bind (fun x => x.video_enabled))
           (c.defaults.bind (fun x => x.video_enabled)) dc.video_enabled ∧
       e.client.screenshare_enabled =
         layer2 ((c.participant_spec i).initial.bind (fun x => x.screenshare_enabled))
           (c.defaults.bind (fun x => x.screenshare_enabled)) dc.screenshare_enabled ∧
       e.client.noise_suppression =
         layer2 ((c.participant_spec i).initial.bind (fun x => x.noise_suppression))
           (c.defaults.bind (fun x => x.noise_suppression)) dc.noise_suppression ∧
       e.client.resolution =
         layer2 ((c.participant_spec i).initial.bind (fun x => x.resolution))
           (c.defaults.bind (fun x => x.resolution)) dc.resolution ∧
       e.client.blur =
         layer2 ((c.participant_spec i).initial.bind (fun x => x.blur))
           (c.defaults.bind (fun x => x.blur)) dc.blur ∧
       e.client.headless =
         layer2 none (c.defaults.bind (fun x => x.headless)) dc.headless ∧
       e.client.transport =
         layer2 none (c.defaults.bind (fun x => x.transport)) dc.transport ∧
       e.fake_media =
         (match (c.participant_spec i).initial with
          | some init => init.fake_media
          | none => c.defaults.bind (fun x => x.fake_media))) := by
  have hlen : 0 < c.workers.length := List.length_pos.mpr h
  have hlt : i % c.workers.length < c.workers.length := Nat.mod_lt _ hlen
  rw [OrchestratorConfig.effective_participant, List.get?_eq_get hlt]
  refine ⟨_, rfl, ?_⟩
  cases hd : c.defaults <;> cases hi : (c.participant_spec i).initial <;>
    simp [applyDefaults_none, applyInitial_none,
      applyDefaults_some, applyInitial_some, layer2_eq_getD, hd, hi]

/-- C1 amended witness: a concrete instantiation of the amended
layering theorem on `cfgFakeMedia`. -/
theorem c1_layering_amended_witness :
    ∃ e, cfgFakeMedia.effective_participant builtinClient0 0 = some e ∧
      (e.client.url = some cfgFakeMedia.session_url ∧
       e.client.audio_enabled =
         layer2 ((cfgFakeMedia.participant_spec 0).initial.bind (fun x => x.audio_enabled))
           (cfgFakeMedia.defaults.bind (fun x => x.audio_enabled)) builtinClient0.audio_enabled ∧
       e.client.video_enabled =
         layer2 ((cfgFakeMedia.participant_spec 0).initial.bind (fun x => x.video_enabled))
           (cfgFakeMedia.defaults.bind (fun x => x.video_enabled)) builtinClient0.video_enabled ∧
       e.client.screenshare_enabled =
         layer2 ((cfgFakeMedia.participant_spec 0).initial.bind (fun x => x.screenshare_enabled))
           (cfgFakeMedia.defaults.bind (fun x => x.screenshare_enabled)) builtinClient0.screenshare_enabled ∧
       e.client.noise_suppression =
         layer2 ((cfgFakeMedia.participant_spec 0).initial.bind (fun x => x.noise_suppression))
           (cfgFakeMedia.defaults.bind (fun x => x.noise_suppression)) builtinClient0.noise_suppression ∧
       e.client.resolution =
         layer2 ((cfgFakeMedia.participant_spec 0).initial.bind (fun x => x.resolution))
           (cfgFakeMedia.defaults.bind (fun x => x.resolution)) builtinClient0.resolution ∧
       e.client.blur =
         layer2 ((cfgFakeMedia.participant_spec 0).initial.bind (fun x => x.blur))
           (cfgFakeMedia.defaults.bind (fun x => x.blur)) builtinClient0.blur ∧
       e.client.headless =
         layer2 none (cfgFakeMedia.defaults.bind (fun x => x.headless)) builtinClient0.headless ∧
       e.client.transport =
         layer2 none (cfgFakeMedia.defaults.bind (fun x => x.transport)) builtinClient0.transport ∧
       e.fake_media =
         (match (cfgFakeMedia.participant_spec 0).initial with
          | some init => init.fake_media
          | none => cfgFakeMedia.defaults.bind (fun x => x.fake_media))) :=
  c1_layering_amended builtinClient0 cfgFakeMedia 0 (by decide)

/-! ## C2: round-robin worker assignment -/

/-- C2: with a non-empty worker list of length N, participant `i` is
assigned `workers[i % N]`. -/
theorem c2_round_robin (dc : ClientConfig) (c : OrchestratorConfig) (i : Nat)
    (h : c.workers ≠ []) :
    ∃ e, c.effective_participant dc i = some e ∧
      some e.remote_url = c.workers.get? (i % c.workers.length) := by
  have hlen : 0 < c.workers.length := List.length_pos.mpr h
  have hlt : i % c.workers.length < c.workers.length := Nat.mod_lt _ hlen
  rw [OrchestratorConfig.effective_participant, List.get?_eq_get hlt]
  exact ⟨_, rfl, rfl⟩

/-- C2 witness: on the three-worker, five-participant plan the
assignment of participant 3 is `workers[3 % 3] = workers[0]`, and of
participant 4 is `workers[1]`. -/
theorem c2_round_robin_witness :
    (∃ e, cfgThreeWorkers.effective_participant builtinClient0 3 = some e ∧
      some e.remote_url = cfgThreeWorkers.workers.get? (3 % cfgThreeWorkers.workers.length)) ∧
    (∃ e, cfgThreeWorkers.effective_participant builtinClient0 4 = some e ∧
      some e.remote_url = cfgThreeWorkers.workers.get? (4 % cfgThreeWorkers.workers.length)) :=
  ⟨c2_round_robin builtinClient0 cfgThreeWorkers 3 (by decide),
   c2_round_robin builtinClient0 cfgThreeWorkers 4 (by decide)⟩

/-! ## C3: page-acquisition retry bound -/

/-- Inductive step for the all-failures run of the retry loop: from
attempt `a` with `a + d = 5` and enough fuel, the loop performs
`d + 1` further calls and ends with the 6th attempt's error. -/
theorem create_page_retry_go_all_fail {E P : Type} (oracle : Nat → Except E P) :
    ∀ (d a fuel : Nat), a + d = 5 → d ≤ fuel →
      (∀ i, i ≤ 5 → (oracle i).isOk = false) →
      create_page_retry_go oracle fuel a = (oracle 5, d + 1) := by
  intro d
  induction d with
  | zero =>
    intro a fuel ha _ hfail
    obtain ⟨e, he⟩ : ∃ e, oracle 5 = .error e := by
      have := hfail 5 (by omega)
      cases hx : oracle 5 <;> simp [hx, Except.isOk, Except.toBool] at this ⊢
    subst ha
    cases fuel with
    | zero => simp [create_page_retry_go]
    | succ f => simp [create_page_retry_go, he]
  | succ d ih =>
    intro a fuel ha hfuel hfail
    obtain ⟨e, he⟩ : ∃ e, oracle a = .error e := by
      have := hfail a (by omega)
      cases hx : oracle a <;> simp [hx, Except.isOk, Except.toBool] at this ⊢
    cases fuel with
    | zero => omega
    | succ f =>
      have ha5 : a < 5 := by omega
      have := ih (a + 1) f (by omega) (by omega) hfail
      simp [create_page_retry_go, he, ha5, this]

/-- Inductive step for a run that succeeds at attempt `a + d` after `d`
failures. -/
theorem create_page_retry_go_ok {E P : Type} (oracle : Nat → Except E P) (p : P) :
    ∀ (d a fuel : Nat), a + d ≤ 5 → d ≤ fuel →
      (∀ i, a ≤ i → i < a + d → (oracle i).isOk = false) →
      oracle (a + d) = .ok p →
      create_page_retry_go oracle fuel a = (.ok p, d + 1) := by
  intro d
  induction d with
  | zero =>
    intro a fuel _ _ _ hok
    rw [Nat.add_zero] at hok
    cases fuel with
    | zero => simp [create_page_retry_go, hok]
    | succ f => simp [create_page_retry_go, hok]
  | succ d ih =>
    intro a fuel hle hfuel hfail hok
    obtain ⟨e, he⟩ : ∃ e, oracle a = .error e := by
      have := hfail a (by omega) (by omega)
      cases hx : oracle a <;> simp [hx, Except.isOk, Except.toBool] at this ⊢
    cases fuel with
    | zero => omega
    | succ f =>
      have ha5 : a < 5 := by omega
      have harg : a + 1 + d = a + (d + 1) := by omega
      have := ih (a + 1) f (by omega) (by omega)
        (fun i h1 h2 => hfail i (by omega) (by omega)) (by rw [harg]; exact hok)
      simp [create_page_retry_go, he, ha5, this]

/-- C3: when `create_page` fails on every attempt, `create_page_retry`
performs exactly 6 calls (5 retries beyond the first) and returns the
6th attempt's error unmodified; when some attempt among the first six
succeeds after only failures, the page is returned. -/
theorem c3_create_page_retry_bound {E P : Type} (oracle : Nat → Except E P) :
    ((∀ i, i ≤ 5 → (oracle i).isOk = false) →
      create_page_retry oracle = (oracle 5, 6)) ∧
    (∀ j p, j ≤ 5 → (∀ i, i < j → (oracle i).isOk = false) →
      oracle j = .ok p →
      create_page_retry oracle = (.ok p, j + 1)) := by
  constructor
  · intro hfail
    exact create_page_retry_go_all_fail oracle 5 0 6 (by omega) (by omega) hfail
  · intro j p hj hfail hok
    exact create_page_retry_go_ok oracle p j 0 6 (by omega) (by omega)
      (fun i _ h2 => hfail i (by omega)) (by simpa using hok)

/-- C3 witness: an oracle failing on every attempt yields the 6th
error after 6 calls; an oracle succeeding on the third attempt yields
the page after 3 calls. -/
theorem c3_create_page_retry_bound_witness :
    create_page_retry (fun i => (Except.error i : Except Nat Unit)) =
      (Except.error 5, 6) ∧
    create_page_retry
        (fun i => if i < 2 then (Except.error i : Except Nat Unit) else .ok ()) =
      (Except.ok (), 3) := by
  constructor
  · exact (c3_create_page_retry_bound _).1 (fun i _ => rfl)
  · exact (c3_create_page_retry_bound _).2 2 () (by omega)
      (fun i hi => by simp [hi, Except.isOk, Except.toBool]) (by simp)

/-! ## C4: cookie borrow/return -/

/-- C4: `give_cookie` on an empty domain queue yields `None`; when the
domain holds exactly one cookie, borrowing pops it from the front, and
dropping the borrow pushes it back so that a further `give_cookie`
returns a cookie with the same username; pops take the queue front and
drops append at the back (FIFO). -/
theorem c4_cookie_borrow_return (m : CookieMap) (d : ByteStr)
    (c : HyperSessionCookie) :
    (m d = [] → (give_cookie m d).1 = none) ∧
    (m d = [c] →
      give_cookie m d = (some ⟨d, c⟩, m.update d []) ∧
      ((give_cookie (drop_borrowed (give_cookie m d).2 ⟨d, c⟩) d).1.map
          (fun b => b.cookie.username) = some c.username)) ∧
    (∀ rest, m d = c :: rest →
      give_cookie m d = (some ⟨d, c⟩, m.update d rest)) ∧
    (drop_borrowed m ⟨d, c⟩) d = m d ++ [c] := by
  refine ⟨?_, ?_, ?_, ?_⟩
  · intro h
    simp [give_cookie, h]
  · intro h
    have h1 : give_cookie m d = (some ⟨d, c⟩, m.update d []) := by
      simp [give_cookie, h]
    refine ⟨h1, ?_⟩
    rw [h1]
    simp [drop_borrowed, return_cookie, give_cookie, CookieMap.update]
  · intro rest h
    simp [give_cookie, h]
  · simp [drop_borrowed, return_cookie, CookieMap.update]

/-- C4 witness: the borrow/return cycle on a concrete one-cookie pool. -/
theorem c4_cookie_borrow_return_witness :
    (let d : ByteStr := [101]
     let c : HyperSessionCookie :=
       { domain := [101], created_at := 1, expires_at := 2,
         username := [117], cookie := [99] }
     let m : CookieMap := fun x => if x = d then [c] else []
     (m [102] = [] → (give_cookie m [102]).1 = none) ∧
     (m d = [c] →
       give_cookie m d = (some ⟨d, c⟩, m.update d []) ∧
       ((give_cookie (drop_borrowed (give_cookie m d).2 ⟨d, c⟩) d).1.map
           (fun b => b.cookie.username) = some c.username))) := by
  refine ⟨fun h => ((c4_cookie_borrow_return _ [102]
    { domain := [101], created_at := 1, expires_at := 2,
      username := [117], cookie := [99] }).1 h), fun h => ?_⟩
  exact ((c4_cookie_borrow_return _ [101]
    { domain := [101], created_at := 1, expires_at := 2,
      username := [117], cookie := [99] }).2.1 h)

/-! ## C6: Join idempotence while joined -/

/-- C6: when the snapshot already says `joined`, the actor's `join`
returns `Ok` with an unchanged state and an empty page-interaction
trace, and the handle-level `Participant::join` sends no message to the
actor. -/
theorem c6_join_idempotent {E : Type} (env : JoinEnv E) (s : ParticipantState)
    (h : s.joined = true) :
    inner_join env s = (.ok (), s, []) ∧ participant_join s = none := by
  constructor
  · simp [inner_join, h]
  · cases hr : s.running <;> simp [participant_join, h, hr]

/-- C6 witness: the all-ok join oracle on a joined snapshot. -/
theorem c6_join_idempotent_witness :
    inner_join joinEnvOk { joined := true, running := true } =
      (.ok (), { joined := true, running := true }, []) ∧
    participant_join { joined := true, running := true } = none :=
  c6_join_idempotent joinEnvOk { joined := true, running := true } rfl

/-! ## C7: initial-join failure is absorbed -/

/-- C7: when the initial `Join` performed at actor startup fails, the
actor kills the browser process, sets `running := false`, and its run
loop returns `Ok` — the failure is not propagated. -/
theorem c7_initial_join_failure_absorbed {E : Type} (env0 : JoinEnv E)
    (envs : Nat → LoopEnv E) (s : ParticipantState)
    (msgs : List ParticipantMessage) (e : E)
    (h : (inner_join env0 { s with running := true }).1 = .error e) :
    handle_actions env0 envs s msgs =
      ({ s with running := false }, true, .ok ()) := by
  unfold handle_actions
  rcases hij : inner_join env0 { s with running := true } with ⟨res, s1, tr⟩
  rw [hij] at h
  simp at h
  subst h
  simp [hij]

/-- C7 witness: a failing first page interaction on a fresh actor. -/
theorem c7_initial_join_failure_absorbed_witness :
    handle_actions joinEnvFail (fun _ => loopEnvOk) {} [] =
      ({ running := false }, true, .ok ()) :=
  c7_initial_join_failure_absorbed joinEnvFail (fun _ => loopEnvOk) {} [] () rfl

/-! ## C8: state frames and watch-channel notifications -/

/-- C8 counterexample: two writes that both set `running := true` — the
second leaves the state equal to the previously sent one — produce two
consecutive state-only frames with equal states, so a value-preserving
write does trigger an outbound frame (`send_modify` bumps the watch
version unconditionally). -/
theorem c8_dedup_counterexample :
    server_state_frames {} [writeRunningTrue, writeRunningTrue] =
      [{ running := true }, { running := true }] ∧
    ¬ List.Chain' (fun a b => a ≠ b)
        (server_state_frames {} [writeRunningTrue, writeRunningTrue]) := by
  constructor
  · rfl
  · have hfr : server_state_frames {} [writeRunningTrue, writeRunningTrue] =
        [{ running := true }, { running := true }] := rfl
    rw [hfr]
    simp [List.chain'_cons]

/-- C8 (amended): under the schedule in which the connection loop
observes the watch channel after each actor write, a state-only frame
is sent for every `send_modify` write — version changes, not value
changes, trigger sends — carrying the post-write snapshot; consecutive
frames may therefore be equal. -/
theorem c8_frames_follow_writes (s0 : ParticipantState)
    (writes : List (ParticipantState → ParticipantState)) :
    server_state_frames s0 writes = write_values s0 writes := by
  suffices h : ∀ (writes : List (ParticipantState → ParticipantState))
      (v : ParticipantState) (n : Nat),
      server_state_frames_go ⟨v, n⟩ n writes = write_values v writes by
    exact h writes s0 0
  intro writes
  induction writes with
  | nil => intro v n; rfl
  | cons f rest ih =>
    intro v n
    simp [server_state_frames_go, Watch.send_modify, Watch.observe,
      write_values, ih]

/-! ## C9: ToggleScreenshare dispatch -/

/-- C9 evaluation: the full-frontend actor's command-dispatch match has
no arm for `ToggleScreenshare` (the source match over the crate's own
closed `ParticipantMessage` enum is not exhaustive), while the lite
actor dispatches it to `toggle_screen_share`; the lite dispatch covers
every message. -/
theorem c9_screenshare_dispatch :
    inner_dispatch .ToggleScreenshare = none ∧
    inner_lite_dispatch .ToggleScreenshare = some .toggleScreenShare ∧
    (∀ m : ParticipantMessage, (inner_lite_dispatch m).isSome = true) := by
  refine ⟨rfl, rfl, ?_⟩
  intro m
  cases m <;> rfl

/-! ## C10: send_message guard -/

/-- C10: for every message other than `Join`, the handle forwards it to
the actor's queue exactly when the observed snapshot has
`running = true` and `joined = true`; otherwise it is silently dropped
(including `Close` sent through `send_message`). -/
theorem c10_send_message_guard (s : ParticipantState) (m : ParticipantMessage)
    (h : m ≠ .Join) :
    send_message s m = some m ↔ (s.running = true ∧ s.joined = true) := by
  cases m <;>
    first
      | exact absurd rfl h
      | (cases hr : s.running <;> cases hj : s.joined <;>
          simp [send_message, hr, hj])

/-- C10 witness: `Close` is forwarded on a running, joined snapshot and
dropped on a running, not-joined snapshot. -/
theorem c10_send_message_guard_witness :
    send_message { running := true, joined := true } .Close = some .Close ∧
    ¬ send_message { running := true, joined := false } .Close =
        some .Close := by
  constructor
  · exact (c10_send_message_guard { running := true, joined := true } .Close
      (by simp)).mpr ⟨rfl, rfl⟩
  · intro hcontra
    have := (c10_send_message_guard { running := true, joined := false } .Close
      (by simp)).mp hcontra
    simp at this

/-! ## C5 helper lemmas: decimal codec -/

/-- Folding most-significant-first digits equals `Nat.ofDigits` of the
little-endian digit list. -/
theorem foldl_reverse_ofDigits (L : List Nat) (acc : Nat) :
    List.foldl (fun a d => a * 10 + d) acc L.reverse =
      acc * 10 ^ L.length + Nat.ofDigits 10 L := by
  induction L generalizing acc with
  | nil => simp
  | cons d L ih =>
    simp only [List.reverse_cons, List.foldl_append, List.foldl_cons,
      List.foldl_nil, ih, Nat.ofDigits_cons, List.length_cons, pow_succ]
    ring

/-- The decimal codec inverts: parsing the decimal bytes of `n`
recovers `n`. -/
theorem parseDecimal_decimalBytes (n : Nat) :
    parseDecimal (decimalBytes n) = some n := by
  by_cases h0 : n = 0
  · subst h0
    rfl
  · have hdig : ∀ d ∈ Nat.digits 10 n, d < 10 :=
      fun d hd => Nat.digits_lt_base (by norm_num) hd
    have hnil : Nat.digits 10 n ≠ [] := Nat.digits_ne_nil_iff_ne_zero.mpr h0
    rw [decimalBytes, if_neg h0, parseDecimal]
    rw [if_neg (by simp [hnil]), if_pos ?hall]
    case hall =>
      simp only [List.all_eq_true, List.mem_map, List.mem_reverse]
      rintro b ⟨d, hd, rfl⟩
      have := hdig d hd
      simp only [decide_eq_true_eq]
      omega
    congr 1
    have hmap : (Nat.digits 10 n).reverse.map (fun d => d + 48) =
        ((Nat.digits 10 n).reverse).map (fun d => d + 48) := rfl
    rw [hmap, List.foldl_map]
    have hfun : (fun (a d : Nat) => a * 10 + (d + 48 - 48)) =
        (fun (a d : Nat) => a * 10 + d) := by
      funext a d
      omega
    simp only [Nat.add_sub_cancel]
    rw [foldl_reverse_ofDigits]
    simp [Nat.ofDigits_digits]

/-! ## C5 helper lemmas: field codecs invert -/

/-- Noise-suppression serde names decode back to their variant. -/
theorem noise_serde_roundtrip (v : NoiseSuppression) :
    NoiseSuppression.ofSerdeName (keyBytes v.serdeName) = some v := by
  cases v <;> decide

/-- Transport-mode serde names decode back to their variant. -/
theorem transport_serde_roundtrip (v : TransportMode) :
    TransportMode.ofSerdeName (keyBytes v.serdeName) = some v := by
  cases v <;> decide

/-- Webcam-resolution serde names decode back to their variant. -/
theorem resolution_serde_roundtrip (v : WebcamResolution) :
    WebcamResolution.ofSerdeName (keyBytes v.serdeName) = some v := by
  cases v <;> decide

/-- The externally tagged fake-media form decodes back. -/
theorem fake_media_json_roundtrip (f : FakeMediaQuery) :
    FakeMediaQuery.fromJson f.toJson = some f := by
  cases f <;> simp +decide [FakeMediaQuery.toJson, FakeMediaQuery.fromJson]

/-- The cookie's serde form decodes back. -/
theorem cookie_json_roundtrip (c : HyperSessionCookie) :
    HyperSessionCookie.fromJson c.toJson = some c := by
  obtain ⟨d, ca, ea, u, ck⟩ := c
  simp +decide [HyperSessionCookie.toJson, HyperSessionCookie.fromJson,
    lookupField, Json.asStr, parseDecimal_decimalBytes]

/-- `asOpt` over a present cookie. -/
theorem asOpt_cookie (c : HyperSessionCookie) :
    Json.asOpt HyperSessionCookie.fromJson c.toJson = some (some c) := by
  obtain ⟨d, ca, ea, u, ck⟩ := c
  simp +decide [Json.asOpt, HyperSessionCookie.toJson,
    HyperSessionCookie.fromJson, lookupField, Json.asStr,
    parseDecimal_decimalBytes]

/-- `asOpt` over a present fake-media value. -/
theorem asOpt_fake_media (f : FakeMediaQuery) :
    Json.asOpt FakeMediaQuery.fromJson f.toJson = some (some f) := by
  cases f <;>
    simp +decide [Json.asOpt, FakeMediaQuery.toJson, FakeMediaQuery.fromJson]

/-- `asOpt` of `null` is `None`. -/
theorem asOpt_null {α : Type} (f : Json → Option α) :
    Json.asOpt f .null = some none := rfl

/-- The query's serde syntax tree decodes back to the query, field by
field. -/
theorem query_json_roundtrip (q : ParticipantConfigQuery) :
    ParticipantConfigQuery.fromJson q.toJson = some q := by
  obtain ⟨un, ru, su, bu, ck, fm, a, v, hl, sc, ns, tr, rs, bl⟩ := q
  cases ck <;> cases fm <;>
    simp +decide [ParticipantConfigQuery.toJson, ParticipantConfigQuery.fromJson,
      lookupField, Json.asStr, Json.asBool, asOpt_null, asOpt_cookie,
      asOpt_fake_media, noise_serde_roundtrip, transport_serde_roundtrip,
      resolution_serde_roundtrip]

/-! ## C5 helper lemmas: the JSON renderer/parser invert -/

/-- Parsing an escaped string body (closing quote appended) recovers
the body and leaves the rest of the input untouched. -/
theorem parseStringBody_escape (s : ByteStr) (rest : ByteStr) :
    parseStringBody (escapeBytes s ++ 34 :: rest) = some (s, rest) := by
  induction s with
  | nil =>
    rw [show escapeBytes [] ++ 34 :: rest = 34 :: rest by simp [escapeBytes]]
    rw [parseStringBody.eq_def]
    simp
  | cons b s ih =>
    by_cases h34 : b = 34
    · subst h34
      have he : escapeBytes (34 :: s) = 92 :: 34 :: escapeBytes s := by
        simp [escapeBytes]
      rw [he, List.cons_append, List.cons_append, parseStringBody.eq_def]
      simp [ih]
    · by_cases h92 : b = 92
      · subst h92
        have he : escapeBytes (92 :: s) = 92 :: 92 :: escapeBytes s := by
          simp [escapeBytes]
        rw [he, List.cons_append, List.cons_append, parseStringBody.eq_def]
        simp [ih]
      · have he : escapeBytes (b :: s) = b :: escapeBytes s := by
          simp [escapeBytes, h34, h92]
        rw [he, List.cons_append, parseStringBody.eq_def]
        simp [h34, h92, ih]

/-- A rendered string literal parses back. -/
theorem parseStringBody_renderString (s : ByteStr) (rest : ByteStr) :
    parseStringBody (List.tail (renderString s) ++ rest) = some (s, rest) := by
  have : List.tail (renderString s) ++ rest = escapeBytes s ++ 34 :: rest := by
    simp [renderString]
  rw [this, parseStringBody_escape]

/-- Every JSON tree has positive size. -/
theorem jsize_pos (j : Json) : 1 ≤ jsize j := by
  cases j <;> simp [jsize]

/-- Every member list has positive size. -/
theorem fsize_pos (fs : JFields) : 1 ≤ fsize fs := by
  cases fs <;> simp [fsize]

/-- A rendered non-empty member list starts with a quote. -/
theorem renderFields_cons_head (k : ByteStr) (v : Json) (fs : JFields) :
    ∃ t, renderFields (.cons k v fs) = 34 :: t := by
  cases fs with
  | nil =>
    refine ⟨escapeBytes k ++ 34 :: 58 :: renderJson v, ?_⟩
    simp [renderFields, renderString]
  | cons k2 v2 fs3 =>
    refine ⟨escapeBytes k ++ 34 :: 58 ::
      (renderJson v ++ 44 :: renderFields (.cons k2 v2 fs3)), ?_⟩
    simp [renderFields, renderString]

mutual
/-- Rendered JSON parses back, leaving the remaining input, given fuel
at least the tree size. -/
theorem parseValue_render (j : Json) (fuel : Nat) (rest : ByteStr)
    (h : jsize j ≤ fuel) :
    parseValue fuel (renderJson j ++ rest) = some (j, rest) := by
  cases fuel with
  | zero =>
    have := jsize_pos j
    omega
  | succ f =>
    cases j with
    | null => rfl
    | bool b => cases b <;> rfl
    | str s =>
      have hshape : renderJson (.str s) ++ rest =
          34 :: (escapeBytes s ++ 34 :: rest) := by
        simp [renderJson, renderString]
      rw [hshape]
      have hstep : parseValue (f + 1) (34 :: (escapeBytes s ++ 34 :: rest)) =
          (parseStringBody (escapeBytes s ++ 34 :: rest)).map
            (fun r => (Json.str r.1, r.2)) := rfl
      rw [hstep, parseStringBody_escape]
      rfl
    | obj fs =>
      cases fs with
      | nil => rfl
      | cons k v fs2 =>
        have hshape : renderJson (.obj (.cons k v fs2)) ++ rest =
            123 :: (renderFields (.cons k v fs2) ++ 125 :: rest) := by
          simp [renderJson]
        rw [hshape]
        obtain ⟨t, ht⟩ := renderFields_cons_head k v fs2
        rw [ht, List.cons_append]
        have hstep : parseValue (f + 1) (123 :: 34 :: (t ++ 125 :: rest)) =
            (parseMembers f (34 :: (t ++ 125 :: rest))).map
              (fun r => (Json.obj r.1, r.2)) := rfl
        rw [hstep, ← List.cons_append, ← ht,
          parseMembers_render k v fs2 f rest (by simp [jsize] at h; omega)]
        rfl
termination_by jsize j
decreasing_by all_goals (subst_vars; simp [jsize, fsize]; try omega)

/-- Rendered member lists (closing brace appended) parse back. -/
theorem parseMembers_render (k : ByteStr) (v : Json) (fs : JFields)
    (fuel : Nat) (rest : ByteStr) (h : fsize (.cons k v fs) ≤ fuel) :
    parseMembers fuel (renderFields (.cons k v fs) ++ 125 :: rest) =
      some (.cons k v fs, rest) := by
  cases fuel with
  | zero =>
    simp [fsize] at h
  | succ f =>
    cases fs with
    | nil =>
      have hshape : renderFields (.cons k v .nil) ++ 125 :: rest =
          34 :: (escapeBytes k ++ 34 :: (58 :: (renderJson v ++ 125 :: rest))) := by
        simp [renderFields, renderString]
      rw [hshape, parseMembers.eq_def]
      simp only [parseStringBody_escape]
      rw [parseValue_render v f (125 :: rest) (by simp [fsize] at h; omega)]
    | cons k2 v2 fs3 =>
      have hshape : renderFields (.cons k v (.cons k2 v2 fs3)) ++ 125 :: rest =
          34 :: (escapeBytes k ++ 34 ::
            (58 :: (renderJson v ++ 44 ::
              (renderFields (.cons k2 v2 fs3) ++ 125 :: rest)))) := by
        simp [renderFields, renderString]
      rw [hshape, parseMembers.eq_def]
      simp only [parseStringBody_escape]
      rw [parseValue_render v f (44 :: (renderFields (.cons k2 v2 fs3) ++ 125 :: rest))
        (by simp [fsize] at h; omega)]
      have hrec := parseMembers_render k2 v2 fs3 f rest
        (by simp [fsize] at h ⊢; omega)
      simp only [hrec]
      rfl
termination_by fsize (JFields.cons k v fs)
decreasing_by all_goals (subst_vars; simp [jsize, fsize]; try omega)
end

mutual
/-- Fuel one more than the rendered length always suffices: the size of
a tree is at most the length of its rendering. -/
theorem jsize_le_render_length (j : Json) :
    jsize j ≤ (renderJson j).length := by
  cases j with
  | null => simp [jsize, renderJson]
  | bool b => cases b <;> simp [jsize, renderJson]
  | str s => simp [jsize, renderString, renderJson]
  | obj fs =>
    have hfs : fsize fs ≤ (renderFields fs).length + 1 := fsize_le_renderFields fs
    simp [jsize, renderJson]
    omega
termination_by jsize j
decreasing_by all_goals (subst_vars; simp [jsize, fsize]; try omega)

/-- Member-list sizes are bounded by rendered length plus one. -/
theorem fsize_le_renderFields (fs : JFields) :
    fsize fs ≤ (renderFields fs).length + 1 := by
  cases fs with
  | nil => simp [fsize, renderFields]
  | cons k v fs2 =>
    cases fs2 with
    | nil =>
      have hv := jsize_le_render_length v
      simp [fsize, renderFields, renderString]
      omega
    | cons k2 v2 fs3 =>
      have hv := jsize_le_render_length v
      have hrec := fsize_le_renderFields (.cons k2 v2 fs3)
      simp [fsize, renderFields, renderString] at hrec ⊢
      omega
termination_by fsize fs
decreasing_by all_goals (subst_vars; simp [jsize, fsize]; try omega)
end


/-! ## C5 helper lemmas: rendered bytes are valid u8 values -/

/-- Validity of a cons cell, as a Bool equation. -/
theorem bytesValid_cons (b : Nat) (l : List Nat) :
    bytesValid (b :: l) = (decide (b < 256) && bytesValid l) := rfl

/-- Validity distributes over append. -/
theorem bytesValid_append (a b : List Nat) :
    bytesValid (a ++ b) = (bytesValid a && bytesValid b) := by
  simp [bytesValid, List.all_append]

/-- `jsonValid` on an object. -/
theorem jsonValid_obj (fs : JFields) : jsonValid (.obj fs) = fieldsValid fs := rfl

/-- `jsonValid` on a string. -/
theorem jsonValid_str (s : ByteStr) : jsonValid (.str s) = bytesValid s := rfl

/-- `jsonValid` on null. -/
theorem jsonValid_null : jsonValid .null = true := rfl

/-- `jsonValid` on a boolean. -/
theorem jsonValid_bool (b : Bool) : jsonValid (.bool b) = true := rfl

/-- `fieldsValid` on a member. -/
theorem fieldsValid_cons (k : ByteStr) (v : Json) (fs : JFields) :
    fieldsValid (.cons k v fs) =
      (bytesValid k && jsonValid v && fieldsValid fs) := rfl

/-- `fieldsValid` on the empty member list. -/
theorem fieldsValid_nil : fieldsValid .nil = true := rfl

/-- Escaping preserves byte validity. -/
theorem bytesValid_escapeBytes (s : ByteStr) (h : bytesValid s = true) :
    bytesValid (escapeBytes s) = true := by
  induction s with
  | nil => rfl
  | cons b s ih =>
    rw [bytesValid_cons, Bool.and_eq_true] at h
    have hs := ih h.2
    by_cases hb : b = 34 ∨ b = 92
    · have he : escapeBytes (b :: s) = 92 :: b :: escapeBytes s := by
        simp [escapeBytes, hb]
      rw [he, bytesValid_cons, bytesValid_cons, h.1, hs]
      rfl
    · push_neg at hb
      have he : escapeBytes (b :: s) = b :: escapeBytes s := by
        simp [escapeBytes, hb.1, hb.2]
      rw [he, bytesValid_cons, h.1, hs]
      rfl

/-- Rendered string literals hold valid bytes. -/
theorem bytesValid_renderString (s : ByteStr) (h : bytesValid s = true) :
    bytesValid (renderString s) = true := by
  rw [renderString, bytesValid_append, bytesValid_cons,
    bytesValid_escapeBytes s h]
  rfl

/-- Decimal bytes are valid. -/
theorem bytesValid_decimalBytes (n : Nat) :
    bytesValid (decimalBytes n) = true := by
  by_cases h0 : n = 0
  · subst h0
    rfl
  · rw [decimalBytes, if_neg h0]
    simp only [bytesValid, List.all_eq_true, List.mem_map, List.mem_reverse]
    rintro b ⟨d, hd, rfl⟩
    have := Nat.digits_lt_base (by norm_num) hd
    simp only [decide_eq_true_eq]
    omega

mutual
/-- Rendering a well-formed tree yields valid bytes. -/
theorem bytesValid_renderJson (j : Json) (h : jsonValid j = true) :
    bytesValid (renderJson j) = true := by
  cases j with
  | null => rfl
  | bool b => cases b <;> rfl
  | str s => exact bytesValid_renderString s h
  | obj fs =>
    have hfs := bytesValid_renderFields fs h
    have hshape : renderJson (.obj fs) = 123 :: (renderFields fs ++ [125]) := rfl
    rw [hshape, bytesValid_cons, bytesValid_append, hfs]
    rfl
termination_by jsize j
decreasing_by all_goals (subst_vars; simp [jsize, fsize]; try omega)

/-- Rendering well-formed member lists yields valid bytes. -/
theorem bytesValid_renderFields (fs : JFields) (h : fieldsValid fs = true) :
    bytesValid (renderFields fs) = true := by
  cases fs with
  | nil => rfl
  | cons k v fs2 =>
    rw [fieldsValid_cons, Bool.and_eq_true, Bool.and_eq_true] at h
    have h1 := bytesValid_renderString k h.1.1
    have h2 := bytesValid_renderJson v h.1.2
    cases fs2 with
    | nil =>
      have hshape : renderFields (.cons k v .nil) =
          renderString k ++ 58 :: renderJson v := rfl
      rw [hshape, bytesValid_append, bytesValid_cons, h1, h2]
      rfl
    | cons k2 v2 fs3 =>
      have h3 := bytesValid_renderFields (.cons k2 v2 fs3) h.2
      have hshape : renderFields (.cons k v (.cons k2 v2 fs3)) =
          (renderString k ++ 58 :: renderJson v) ++
            44 :: renderFields (.cons k2 v2 fs3) := rfl
      rw [hshape, bytesValid_append, bytesValid_append, bytesValid_cons,
        bytesValid_cons, h1, h2, h3]
      rfl
termination_by fsize fs
decreasing_by all_goals (subst_vars; simp [jsize, fsize]; try omega)
end

/-- A valid query serializes to a well-formed syntax tree. -/
theorem jsonValid_query_toJson (q : ParticipantConfigQuery)
    (h : q.valid = true) :
    jsonValid q.toJson = true := by
  obtain ⟨un, ru, su, bu, ck, fm, a, v, hl, sc, ns, tr, rs, bl⟩ := q
  simp only [ParticipantConfigQuery.valid, Bool.and_eq_true] at h
  obtain ⟨⟨⟨⟨⟨hun, hru⟩, hsu⟩, hbu⟩, hck⟩, hfm⟩ := h
  have hnsv : bytesValid (keyBytes ns.serdeName) = true := by
    cases ns <;> decide
  have htrv : bytesValid (keyBytes tr.serdeName) = true := by
    cases tr <;> decide
  have hrsv : bytesValid (keyBytes rs.serdeName) = true := by
    cases rs <;> decide
  cases ck with
  | none =>
    cases fm with
    | none =>
      simp +decide [ParticipantConfigQuery.toJson, HyperSessionCookie.toJson,
        FakeMediaQuery.toJson, jsonValid_obj, fieldsValid_cons, fieldsValid_nil,
        jsonValid_str, jsonValid_bool, jsonValid_null, bytesValid_decimalBytes, *]
    | some f =>
      cases f <;> (try simp at hfm) <;>
        simp +decide [ParticipantConfigQuery.toJson, HyperSessionCookie.toJson,
          FakeMediaQuery.toJson, jsonValid_obj, fieldsValid_cons, fieldsValid_nil,
          jsonValid_str, jsonValid_bool, jsonValid_null, bytesValid_decimalBytes, *]
  | some c =>
    obtain ⟨d, ca, ea, u2, co⟩ := c
    simp at hck
    cases fm with
    | none =>
      simp +decide [ParticipantConfigQuery.toJson, HyperSessionCookie.toJson,
        FakeMediaQuery.toJson, jsonValid_obj, fieldsValid_cons, fieldsValid_nil,
        jsonValid_str, jsonValid_bool, jsonValid_null, bytesValid_decimalBytes, *]
    | some f =>
      cases f <;> (try simp at hfm) <;>
        simp +decide [ParticipantConfigQuery.toJson, HyperSessionCookie.toJson,
          FakeMediaQuery.toJson, jsonValid_obj, fieldsValid_cons, fieldsValid_nil,
          jsonValid_str, jsonValid_bool, jsonValid_null, bytesValid_decimalBytes, *]

/-! ## C5 helper lemmas: base64 inverts -/

/-- The alphabet map inverts on six-bit values. -/
theorem sextetOfChar_sextetChar (s : Nat) (h : s < 64) :
    sextetOfChar (sextetChar s) = some s := by
  unfold sextetChar sextetOfChar
  split_ifs <;> (try omega) <;> (congr 1; omega)

/-- Alphabet bytes are never the padding byte. -/
theorem sextetChar_ne_61 (s : Nat) (h : s < 64) : sextetChar s ≠ 61 := by
  unfold sextetChar
  split_ifs <;> omega

/-- Base64 decoding inverts encoding on valid byte buffers. -/
theorem b64decode_b64encode (bs : List Nat) (h : bytesValid bs = true) :
    b64decode (b64encode bs) = some bs := by
  match bs with
  | [] => rfl
  | [a] =>
    rw [bytesValid_cons, Bool.and_eq_true, decide_eq_true_eq] at h
    have ha := h.1
    have h1 : a / 4 < 64 := by omega
    have h2 : a % 4 * 16 < 64 := by omega
    rw [show b64encode [a] =
        [sextetChar (a / 4), sextetChar (a % 4 * 16), 61, 61] from rfl,
      b64decode]
    simp only [sextetOfChar_sextetChar _ h1, sextetOfChar_sextetChar _ h2]
    simp
    omega
  | [a, b] =>
    rw [bytesValid_cons, Bool.and_eq_true, decide_eq_true_eq] at h
    obtain ⟨ha, h⟩ := h
    rw [bytesValid_cons, Bool.and_eq_true, decide_eq_true_eq] at h
    have hb := h.1
    have h1 : a / 4 < 64 := by omega
    have h2 : a % 4 * 16 + b / 16 < 64 := by omega
    have h3 : b % 16 * 4 < 64 := by omega
    rw [show b64encode [a, b] =
        [sextetChar (a / 4), sextetChar (a % 4 * 16 + b / 16),
         sextetChar (b % 16 * 4), 61] from rfl,
      b64decode]
    simp only [sextetOfChar_sextetChar _ h1, sextetOfChar_sextetChar _ h2,
      sextetOfChar_sextetChar _ h3, if_neg (sextetChar_ne_61 _ h3)]
    simp
    constructor
    · omega
    · omega
  | a :: b :: c :: rest =>
    rw [bytesValid_cons, Bool.and_eq_true, decide_eq_true_eq] at h
    obtain ⟨ha, h⟩ := h
    rw [bytesValid_cons, Bool.and_eq_true, decide_eq_true_eq] at h
    obtain ⟨hb, h⟩ := h
    rw [bytesValid_cons, Bool.and_eq_true, decide_eq_true_eq] at h
    obtain ⟨hc, hrest⟩ := h
    have ih := b64decode_b64encode rest hrest
    have h1 : a / 4 < 64 := by omega
    have h2 : a % 4 * 16 + b / 16 < 64 := by omega
    have h3 : b % 16 * 4 + c / 64 < 64 := by omega
    have h4 : c % 64 < 64 := by omega
    rw [show b64encode (a :: b :: c :: rest) =
        sextetChar (a / 4) :: sextetChar (a % 4 * 16 + b / 16) ::
        sextetChar (b % 16 * 4 + c / 64) :: sextetChar (c % 64) ::
        b64encode rest from rfl,
      b64decode]
    simp only [sextetOfChar_sextetChar _ h1, sextetOfChar_sextetChar _ h2,
      sextetOfChar_sextetChar _ h3, sextetOfChar_sextetChar _ h4,
      if_neg (sextetChar_ne_61 _ h3), if_neg (sextetChar_ne_61 _ h4),
      ih, Option.map_some]
    simp
    refine ⟨by omega, by omega, by omega⟩
termination_by bs.length

/-! ## C5: the payload token round-trips -/

/-- C5: for every valid `ParticipantConfigQuery`, base64-decoding and
JSON-deserializing (as in `TryFrom<String>`) the payload token produced
by JSON-serializing and base64-encoding the query (as in `into_url`)
yields a query equal to the original on every field. -/
theorem c5_payload_roundtrip (q : ParticipantConfigQuery)
    (h : q.valid = true) :
    try_from_payload (into_url_payload q) = some q := by
  have hjv := jsonValid_query_toJson q h
  have hbytes := bytesValid_renderJson q.toJson hjv
  have hsize : jsize q.toJson ≤ (renderJson q.toJson).length + 1 := by
    have := jsize_le_render_length q.toJson
    omega
  have hparse := parseValue_render q.toJson
    ((renderJson q.toJson).length + 1) [] hsize
  rw [List.append_nil] at hparse
  unfold into_url_payload try_from_payload
  rw [b64decode_b64encode _ hbytes]
  simp only [hparse]
  exact query_json_roundtrip q

/-- C5 witness: the round-trip evaluated on a concrete query carrying a
cookie, a fake-media URL and non-default flags. -/
theorem c5_payload_roundtrip_witness :
    queryEx.valid = true ∧
    try_from_payload (into_url_payload queryEx) = some queryEx :=
  ⟨by decide, c5_payload_roundtrip queryEx (by decide)⟩
